import Mathlib

/-!
Verification of the preset/preference state logic of ScreenTone (src/main.py).

The embedding models the application state that the claims are about:
the presets directory and the restore directory as association lists of
file name to parsed JSON content, the per-display sliders as a list of
integers, the preset dropdown (QComboBox) as an item list with a current
index, the `is_preset_saved` flag, the per-display debounce timers, and
the accumulated `set_brightness` calls.  Each operation below mirrors one
method of `ScreenToneApp`, including the fact that `load_presets` is
invoked with the dropdown's signals unblocked from `load_monitors`,
`delete_selected_preset` and `save_current_preset`, so repopulating the
dropdown re-enters `apply_selected_preset` on the first listed preset.
-/

namespace ScreenTone

/-- Clamp a brightness value into the slider range 0..100 (QSlider has
setMinimum 0 and setMaximum 100, and setValue bounds its argument). -/
def clamp (v : Int) : Int := max 0 (min 100 v)

/-- Contents of a directory of JSON files: file name paired with parsed
content; a `none` content models a file whose JSON does not parse as a
list of integers. -/
abbrev Fs := List (String × Option (List Int))

/-- Look a file up by name (first entry wins, as for a real directory the
names are distinct). -/
def lookupFile : Fs → String → Option (Option (List Int))
  | [], _ => none
  | (m, c) :: rest, n => if m = n then some c else lookupFile rest n

/-- Result of `json.load` on presets_dir/n: `some values` exactly when the
file exists and parses as a list of integers. -/
def readPreset (fs : Fs) (n : String) : Option (List Int) :=
  match lookupFile fs n with
  | some c => c
  | none => none

/-- Writing a file: the name now maps to the new content. -/
def writeFile (fs : Fs) (n : String) (c : Option (List Int)) : Fs :=
  (n, c) :: fs.filter (fun p => p.1 ≠ n)

/-- Removing a file from a directory. -/
def removeFile (fs : Fs) (n : String) : Fs :=
  fs.filter (fun p => p.1 ≠ n)

/-- Python string comparison, lexicographic by Unicode code point. -/
def lexLe : List Char → List Char → Bool
  | [], _ => true
  | _ :: _, [] => false
  | a :: as, b :: bs => if a = b then lexLe as bs else decide (a < b)

/-- Python `a <= b` on strings. -/
def strLe (a b : String) : Bool := lexLe a.data b.data

/-- Python `name.endswith(".json")`. -/
def endsWithJson (n : String) : Bool := List.isSuffixOf (".json").data n.data

/-- main.py lines 185-188: `os.listdir` filtered to names ending in
".json", then `list.sort()` (lexicographic on strings). -/
def sortedPresetNames (fs : Fs) : List String :=
  List.insertionSort (fun a b => strLe a b = true)
    ((fs.map Prod.fst).filter (fun n => endsWithJson n))

/-- The preset QComboBox: its item list and its current index (-1 when
nothing is selected, as in Qt). -/
structure Dropdown where
  items : List String
  currentIndex : Int
  deriving DecidableEq, Repr

/-- QComboBox.currentText: the text of the current item, "" when the
index is -1. -/
def currentText (d : Dropdown) : String :=
  if d.currentIndex < 0 then ("") else d.items.getD d.currentIndex.toNat ("")

/-- Index of the first item with the given text. -/
def indexOfText (t : String) : List String → Option Nat
  | [] => none
  | s :: rest => if s = t then some 0 else (indexOfText t rest).map (· + 1)

/-- QComboBox.setCurrentText on a non-editable combo box: select the
matching item when there is one, otherwise leave the selection as it
is. -/
def setCurrentText (d : Dropdown) (t : String) : Dropdown :=
  match indexOfText t d.items with
  | some i => { d with currentIndex := (i : Int) }
  | none => d

/-- The mutable state of `ScreenToneApp` that the claims are about, plus
the externally visible `set_brightness` calls accumulated in order. -/
structure AppState where
  fs : Fs
  restoreFs : Fs
  sliders : List Int
  isPresetSaved : Bool
  dropdown : Dropdown
  presetsList : List String
  pending : List (Nat × Int)
  calls : List (Nat × Int)
  deriving DecidableEq, Repr

/-- Effect on the sliders of the loop
`for i, value in enumerate(values): if i < len(sliders): sliders[i].setValue(value)`:
the prefix covered by `values` is overwritten (clamped by the slider),
sliders past the end of `values` keep their previous values. -/
def setSliders : List Int → List Int → List Int
  | sliders, [] => sliders
  | [], _ :: _ => []
  | _ :: ss, v :: vs => clamp v :: setSliders ss vs

/-- The `set_brightness(i, value)` calls issued by the same loop: one per
enumerated index `i < n` where `n` is the slider count, carrying the raw
value. -/
def brightnessCalls (i n : Nat) : List Int → List (Nat × Int)
  | [] => []
  | v :: vs =>
    if i < n then (i, v) :: brightnessCalls (i + 1) n vs
    else brightnessCalls (i + 1) n vs

/-- Values paired with their enumeration index starting at `i`. -/
def enumFrom (i : Nat) : List Int → List (Nat × Int)
  | [] => []
  | v :: vs => (i, v) :: enumFrom (i + 1) vs

/-- main.py lines 192-207 (`apply_selected_preset`): no-op on the empty
text or the sentinel; otherwise read the preset file, and on success set
the guarded slider prefix, issue the brightness calls and mark the state
saved; the try/except turns a missing or malformed file into a no-op. -/
def apply_selected_preset (st : AppState) : AppState :=
  if currentText st.dropdown = ("") ∨ currentText st.dropdown = ("UnsavedPreset") then st
  else
    match readPreset st.fs (currentText st.dropdown) with
    | some values =>
      { st with
          sliders := setSliders st.sliders values
          calls := st.calls ++ brightnessCalls 0 st.sliders.length values
          isPresetSaved := true }
    | none => st

/-- main.py lines 181-190 (`load_presets`), as called with the dropdown's
signals unblocked (from `load_monitors`, `delete_selected_preset` and
`save_current_preset`): the dropdown is cleared and refilled, and the
index change from -1 to 0 on the first `addItem` re-enters
`apply_selected_preset` with the first sorted preset as current text. -/
def load_presets_unblocked (st : AppState) : AppState :=
  match sortedPresetNames st.fs with
  | [] => { st with presetsList := [], dropdown := ⟨[], -1⟩ }
  | n :: rest =>
    apply_selected_preset
      { st with presetsList := n :: rest, dropdown := ⟨n :: rest, 0⟩ }

/-- main.py lines 162-169 (`reset_sliders_to_default`): every slider is
set to 50 with its signals blocked, then `set_brightness(idx, 50)` is
issued for every display index. -/
def reset_sliders_to_default (st : AppState) : AppState :=
  { st with
      sliders := st.sliders.map (fun _ => clamp 50)
      calls := st.calls ++ (List.range st.sliders.length).map (fun i => (i, (50 : Int))) }

/-- main.py lines 142-160 (`delete_selected_preset`): no-op on empty or
sentinel text and on a missing file; otherwise `shutil.move` into the
restore directory (`moveOk` tells whether it succeeds; on failure the
bare except swallows the error), then reload the presets (signals
unblocked), reset the sliders to 50, rebuild the dropdown with the
sentinel first and select it, and clear the saved flag. -/
def delete_selected_preset (st : AppState) (moveOk : Bool) : AppState :=
  if currentText st.dropdown = ("") ∨ currentText st.dropdown = ("UnsavedPreset") then st
  else
    match lookupFile st.fs (currentText st.dropdown) with
    | none => st
    | some c =>
      let st0 :=
        if moveOk then
          { st with
              fs := removeFile st.fs (currentText st.dropdown)
              restoreFs :=
                (currentText st.dropdown, c) :: removeFile st.restoreFs (currentText st.dropdown) }
        else st
      let st1 := reset_sliders_to_default (load_presets_unblocked st0)
      { st1 with
          dropdown := ⟨("UnsavedPreset") :: st1.presetsList, 0⟩
          isPresetSaved := false }

/-- main.py lines 124-140 (`monitor_slider_changed`): when the state was
saved, clear the flag and rebuild the dropdown (signals blocked) with the
sentinel first; then replace the display's pending debounce timer with a
fresh one carrying the new value (the dict overwrite of
`brightness_update_timers` after `.stop()`). -/
def monitor_slider_changed (st : AppState) (d : Nat) (v : Int) : AppState :=
  let st1 :=
    if st.isPresetSaved then
      { st with
          isPresetSaved := false
          dropdown := ⟨("UnsavedPreset") :: st.presetsList, 0⟩ }
    else st
  { st1 with pending := (d, v) :: st1.pending.filter (fun p => p.1 ≠ d) }

/-- Expiry of every pending debounce timer once the debounce window has
passed with no further movement: each timer issues exactly one
`set_brightness` call with its captured value. -/
def fire_pending_timers (st : AppState) : AppState :=
  { st with pending := [], calls := st.calls ++ st.pending.reverse }

/-- Outcome of the preset file write in `save_current_preset`. -/
inductive WriteOutcome where
  | ok : WriteOutcome
  | failBefore : WriteOutcome
  | failPartial : Option (List Int) → WriteOutcome
  deriving DecidableEq, Repr

/-- main.py line 213: append ".json" unless the chosen name already ends
with it. -/
def normName (n : String) : String :=
  if endsWithJson n then n else n ++ (".json")

/-- main.py lines 209-220 (`save_current_preset`); `name` is the base
name chosen in the save dialog ("" models a cancelled dialog).  There is
no try/except around the write, so a failing write raises out of the
method (`Except.error`, carrying the state at the point of the raise:
the file untouched when the open fails, partial content when the write
is interrupted).  On success the saved flag is set, the presets are
reloaded with signals unblocked, and `setCurrentText` is called with the
basename of the name as typed, not of the normalized file name. -/
def save_current_preset (st : AppState) (name : String) (w : WriteOutcome) :
    Except AppState AppState :=
  if name = ("") then Except.ok st
  else
    match w with
    | WriteOutcome.failBefore => Except.error st
    | WriteOutcome.failPartial c =>
        Except.error { st with fs := writeFile st.fs (normName name) c }
    | WriteOutcome.ok =>
      let st1 :=
        { st with fs := writeFile st.fs (normName name) (some st.sliders), isPresetSaved := true }
      let st2 := load_presets_unblocked st1
      Except.ok { st2 with dropdown := setCurrentText st2.dropdown name }

/-- main.py lines 228-238: linear search of `presets_list` for the first
preset file whose parsed content equals `levels` (Python list equality:
order- and length-sensitive); unreadable files are skipped by the inner
try/except. -/
def firstMatch (fs : Fs) (levels : List Int) : List String → Option String
  | [] => none
  | n :: rest => if readPreset fs n = some levels then some n else firstMatch fs levels rest

/-- main.py lines 222-258 (`load_user_prefs`): `prefs = none` models a
missing or unparsable preferences file (nothing happens), `some levels`
the parsed "brightness_levels" entry (default []).  The match search runs
first, then the guarded slider loop, then the dropdown update with
signals blocked. -/
def load_user_prefs (st : AppState) (prefs : Option (List Int)) : AppState :=
  match prefs with
  | none => st
  | some levels =>
    let matched := firstMatch st.fs levels st.presetsList
    let st1 :=
      { st with
          sliders := setSliders st.sliders levels
          calls := st.calls ++ brightnessCalls 0 st.sliders.length levels }
    match matched with
    | some n => { st1 with dropdown := setCurrentText st1.dropdown n, isPresetSaved := true }
    | none =>
      { st1 with
          dropdown := ⟨("UnsavedPreset") :: st.presetsList, 0⟩
          isPresetSaved := false }

/-- State after `load_monitors` (main.py lines 98-120): the presets are
loaded with the dropdown's signals unblocked while the slider list is
still empty, then one slider per display is created and initialised to
the hardware-reported brightness `hw` (`setValue` happens before
`valueChanged` is connected, so no debounce timer starts). -/
def mkStartupState (fs restoreFs : Fs) (hw : List Int) : AppState :=
  let st0 : AppState :=
    { fs := fs, restoreFs := restoreFs, sliders := [], isPresetSaved := true,
      dropdown := ⟨[], -1⟩, presetsList := [], pending := [], calls := [] }
  { load_presets_unblocked st0 with sliders := hw }

/-- Project an `Except` result to the carried state (both constructors of
`save_current_preset` carry the full application state). -/
def getState : Except AppState AppState → AppState
  | Except.ok st => st
  | Except.error st => st

/-- True exactly when the computation raised. -/
def isRaised : Except AppState AppState → Bool
  | Except.ok _ => false
  | Except.error _ => true

/-- State after startup reconciliation: `load_monitors` followed by
`load_user_prefs` on parsed preference levels. -/
def startupAfterPrefs (fs restoreFs : Fs) (hw levels : List Int) : AppState :=
  load_user_prefs (mkStartupState fs restoreFs hw) (some levels)

/-! ### Lemmas about the string order and the sorted preset listing -/

theorem lexLe_refl (as : List Char) : lexLe as as = true := by
  induction as with
  | nil => rfl
  | cons a as ih => simp [lexLe, ih]

theorem lexLe_total (as bs : List Char) : lexLe as bs = true ∨ lexLe bs as = true := by
  induction as generalizing bs with
  | nil => exact Or.inl rfl
  | cons a as ih =>
    cases bs with
    | nil => exact Or.inr rfl
    | cons b bs =>
      by_cases hab : a = b
      · subst hab
        simpa [lexLe] using ih bs
      · rcases lt_or_gt_of_ne hab with hlt | hgt
        · exact Or.inl (by simp [lexLe, hab, hlt])
        · exact Or.inr (by simp [lexLe, Ne.symm hab, hgt])

theorem lexLe_trans (as bs cs : List Char) (h1 : lexLe as bs = true)
    (h2 : lexLe bs cs = true) : lexLe as cs = true := by
  induction as generalizing bs cs with
  | nil => rfl
  | cons a as ih =>
    cases bs with
    | nil => simp [lexLe] at h1
    | cons b bs =>
      cases cs with
      | nil => simp [lexLe] at h2
      | cons c cs =>
        by_cases hab : a = b
        · subst hab
          by_cases hbc : a = c
          · subst hbc
            simp only [lexLe, if_pos rfl] at h1 h2 ⊢
            exact ih bs cs h1 h2
          · simpa [lexLe, hbc] using (by simpa [lexLe, hbc] using h2)
        · by_cases hbc : b = c
          · subst hbc
            simpa [lexLe, hab] using (by simpa [lexLe, hab] using h1)
          · simp only [lexLe, if_neg hab] at h1
            simp only [lexLe, if_neg hbc] at h2
            have hlt : a < c := lt_trans (of_decide_eq_true h1) (of_decide_eq_true h2)
            have hac : a ≠ c := ne_of_lt hlt
            simp [lexLe, hac, hlt]

theorem strLe_refl (a : String) : strLe a a = true := lexLe_refl a.data

instance : IsTotal String (fun a b => strLe a b = true) :=
  ⟨fun a b => lexLe_total a.data b.data⟩

instance : IsTrans String (fun a b => strLe a b = true) :=
  ⟨fun a b c => lexLe_trans a.data b.data c.data⟩

theorem sortedPresetNames_sorted (fs : Fs) :
    (sortedPresetNames fs).Sorted (fun a b => strLe a b = true) :=
  List.sorted_insertionSort _ _

theorem mem_sortedPresetNames (fs : Fs) (n : String) :
    n ∈ sortedPresetNames fs ↔
      n ∈ (fs.map Prod.fst).filter (fun m => endsWithJson m) :=
  (List.perm_insertionSort _ _).mem_iff

/-! ### Lemmas about the file-system model -/

theorem lookupFile_writeFile (fs : Fs) (n : String) (c : Option (List Int)) :
    lookupFile (writeFile fs n c) n = some c := by
  simp [lookupFile, writeFile]

theorem lookupFile_removeFile (fs : Fs) (n : String) :
    lookupFile (removeFile fs n) n = none := by
  induction fs with
  | nil => rfl
  | cons p rest ih =>
    by_cases h : p.1 = n
    · simpa [removeFile, h] using (by simpa [removeFile, h] using ih)
    · cases p with
      | mk m c => simp_all [removeFile, lookupFile]

theorem lookupFile_cons_self (rest : Fs) (n : String) (c : Option (List Int)) :
    lookupFile ((n, c) :: rest) n = some c := by
  simp [lookupFile]

theorem mem_map_fst_of_lookupFile {fs : Fs} {n : String} {c : Option (List Int)}
    (h : lookupFile fs n = some c) : n ∈ fs.map Prod.fst := by
  induction fs with
  | nil => simp [lookupFile] at h
  | cons p rest ih =>
    cases p with
    | mk m d =>
      by_cases hm : m = n
      · simp [hm]
      · simp only [lookupFile, if_neg hm] at h
        simpa using Or.inr (by simpa using ih h)

/-! ### Lemmas about the dropdown -/

theorem indexOfText_getD {t : String} {l : List String} {i : Nat}
    (h : indexOfText t l = some i) : l.getD i ("") = t := by
  induction l generalizing i with
  | nil => simp [indexOfText] at h
  | cons s rest ih =>
    by_cases hs : s = t
    · simp only [indexOfText, if_pos hs] at h
      cases h
      simpa using hs
    · rw [indexOfText, if_neg hs] at h
      cases hrest : indexOfText t rest with
      | none => rw [hrest] at h; simp at h
      | some j =>
        rw [hrest] at h
        simp only [Option.map_some'] at h
        cases h
        simpa using ih hrest

theorem indexOfText_isSome {t : String} {l : List String} (h : t ∈ l) :
    (indexOfText t l).isSome = true := by
  induction l with
  | nil => simp at h
  | cons s rest ih =>
    by_cases hs : s = t
    · simp [indexOfText, hs]
    · rcases List.mem_cons.mp h with h1 | h1
      · exact absurd h1.symm hs
      · simp only [indexOfText, if_neg hs]
        rcases Option.isSome_iff_exists.mp (ih h1) with ⟨j, hj⟩
        simp [hj]

theorem currentText_natIndex (items : List String) (i : Nat) :
    currentText ⟨items, (i : Int)⟩ = items.getD i ("") := by
  simp [currentText]

theorem currentText_setCurrentText {d : Dropdown} {t : String} (h : t ∈ d.items) :
    currentText (setCurrentText d t) = t := by
  rcases Option.isSome_iff_exists.mp (indexOfText_isSome h) with ⟨i, hi⟩
  have hget := indexOfText_getD hi
  simp only [setCurrentText, hi]
  show currentText ⟨d.items, (i : Int)⟩ = t
  rw [currentText_natIndex]
  exact hget

theorem currentText_cons_zero (x : String) (l : List String) :
    currentText ⟨x :: l, 0⟩ = x := by
  simp [currentText]

/-! ### Lemmas about slider application and brightness calls -/

theorem clamp_eq_self {v : Int} (h0 : 0 ≤ v) (h1 : v ≤ 100) : clamp v = v := by
  simp only [clamp]
  omega

theorem setSliders_length (s v : List Int) : (setSliders s v).length = s.length := by
  induction s generalizing v with
  | nil => cases v <;> rfl
  | cons a s ih =>
    cases v with
    | nil => rfl
    | cons w vs => simp [setSliders, ih]

theorem setSliders_eq (s v : List Int) :
    setSliders s v = (v.take s.length).map clamp ++ s.drop v.length := by
  induction s generalizing v with
  | nil => cases v <;> simp [setSliders]
  | cons a s ih =>
    cases v with
    | nil => simp [setSliders]
    | cons w vs => simp [setSliders, ih]

theorem brightnessCalls_of_le {i n : Nat} (h : n ≤ i) (v : List Int) :
    brightnessCalls i n v = [] := by
  induction v generalizing i with
  | nil => rfl
  | cons w vs ih =>
    have hni : ¬ i < n := by omega
    simp only [brightnessCalls, if_neg hni]
    exact ih (by omega)

theorem brightnessCalls_take (i n : Nat) (v : List Int) :
    brightnessCalls i n v = brightnessCalls i n (v.take (n - i)) := by
  induction v generalizing i with
  | nil => simp
  | cons w vs ih =>
    by_cases hlt : i < n
    · have : n - i = (n - (i + 1)) + 1 := by omega
      rw [this]
      simp only [List.take_succ_cons, brightnessCalls, if_pos hlt]
      rw [ih (i + 1)]
    · have hle : n ≤ i := by omega
      have : n - i = 0 := by omega
      rw [this]
      simp only [List.take_zero]
      rw [brightnessCalls_of_le hle, brightnessCalls_of_le hle]

theorem mem_brightnessCalls {i n : Nat} {v : List Int} {p : Nat × Int}
    (h : p ∈ brightnessCalls i n v) : p.1 < n := by
  induction v generalizing i with
  | nil => simp [brightnessCalls] at h
  | cons w vs ih =>
    by_cases hlt : i < n
    · simp only [brightnessCalls, if_pos hlt, List.mem_cons] at h
      rcases h with h | h
      · rw [h]; exact hlt
      · exact ih h
    · simp only [brightnessCalls, if_neg hlt] at h
      exact ih h

theorem brightnessCalls_eq_enumFrom {i n : Nat} {v : List Int}
    (h : i + v.length ≤ n) : brightnessCalls i n v = enumFrom i v := by
  induction v generalizing i with
  | nil => rfl
  | cons w vs ih =>
    have hlt : i < n := by simp at h; omega
    simp only [brightnessCalls, if_pos hlt, enumFrom]
    rw [ih (by simp at h ⊢; omega)]

theorem mem_enumFrom {i : Nat} {v : List Int} {p : Nat × Int}
    (h : p ∈ enumFrom i v) : i ≤ p.1 ∧ p.1 < i + v.length := by
  induction v generalizing i with
  | nil => simp [enumFrom] at h
  | cons w vs ih =>
    simp only [enumFrom, List.mem_cons] at h
    rcases h with h | h
    · rw [h]; simp
    · have := ih h
      constructor <;> [omega; (simp only [List.length_cons]; omega)]

/-! ### Lemmas about the linear preset search -/

theorem firstMatch_mem {fs : Fs} {levels : List Int} {names : List String} {n : String}
    (h : firstMatch fs levels names = some n) : n ∈ names := by
  induction names with
  | nil => simp [firstMatch] at h
  | cons m rest ih =>
    by_cases hm : readPreset fs m = some levels
    · simp only [firstMatch, if_pos hm] at h
      cases h
      simp
    · simp only [firstMatch, if_neg hm] at h
      simpa using Or.inr (by simpa using ih h)

theorem firstMatch_read {fs : Fs} {levels : List Int} {names : List String} {n : String}
    (h : firstMatch fs levels names = some n) : readPreset fs n = some levels := by
  induction names with
  | nil => simp [firstMatch] at h
  | cons m rest ih =>
    by_cases hm : readPreset fs m = some levels
    · simp only [firstMatch, if_pos hm] at h
      cases h
      exact hm
    · simp only [firstMatch, if_neg hm] at h
      exact ih h

theorem firstMatch_none {fs : Fs} {levels : List Int} {names : List String}
    (h : firstMatch fs levels names = none) :
    ∀ m ∈ names, readPreset fs m ≠ some levels := by
  induction names with
  | nil => simp
  | cons m rest ih =>
    by_cases hm : readPreset fs m = some levels
    · simp [firstMatch, if_pos hm] at h
    · simp only [firstMatch, if_neg hm] at h
      intro x hx
      rcases List.mem_cons.mp hx with h1 | h1
      · rw [h1]; exact hm
      · exact ih h x h1

theorem firstMatch_first {fs : Fs} {levels : List Int} {names : List String} {n : String}
    (hs : names.Sorted (fun a b => strLe a b = true))
    (h : firstMatch fs levels names = some n) :
    ∀ m ∈ names, readPreset fs m = some levels → strLe n m = true := by
  induction names with
  | nil => simp [firstMatch] at h
  | cons x rest ih =>
    rw [List.sorted_cons] at hs
    by_cases hx : readPreset fs x = some levels
    · simp only [firstMatch, if_pos hx] at h
      cases h
      intro m hm _
      rcases List.mem_cons.mp hm with h1 | h1
      · rw [h1]; exact strLe_refl n
      · exact hs.1 m h1
    · simp only [firstMatch, if_neg hx] at h
      intro m hm hmread
      rcases List.mem_cons.mp hm with h1 | h1
      · exact absurd (h1 ▸ hmread) hx
      · exact ih hs.2 h m h1 hmread

/-! ### Structural lemmas about apply_selected_preset and load_presets -/

theorem apply_fs (st : AppState) : (apply_selected_preset st).fs = st.fs := by
  unfold apply_selected_preset
  split
  · rfl
  · split <;> rfl

theorem apply_restoreFs (st : AppState) :
    (apply_selected_preset st).restoreFs = st.restoreFs := by
  unfold apply_selected_preset
  split
  · rfl
  · split <;> rfl

theorem apply_dropdown (st : AppState) :
    (apply_selected_preset st).dropdown = st.dropdown := by
  unfold apply_selected_preset
  split
  · rfl
  · split <;> rfl

theorem apply_presetsList (st : AppState) :
    (apply_selected_preset st).presetsList = st.presetsList := by
  unfold apply_selected_preset
  split
  · rfl
  · split <;> rfl

theorem apply_pending (st : AppState) :
    (apply_selected_preset st).pending = st.pending := by
  unfold apply_selected_preset
  split
  · rfl
  · split <;> rfl

theorem apply_sliders_length (st : AppState) :
    (apply_selected_preset st).sliders.length = st.sliders.length := by
  unfold apply_selected_preset
  split
  · rfl
  · split
    · simp [setSliders_length]
    · rfl

theorem apply_saved {st : AppState} (h : st.isPresetSaved = true) :
    (apply_selected_preset st).isPresetSaved = true := by
  unfold apply_selected_preset
  split
  · exact h
  · split
    · rfl
    · exact h

theorem apply_calls_of_nil {st : AppState} (h : st.sliders = []) :
    (apply_selected_preset st).calls = st.calls := by
  unfold apply_selected_preset
  split
  · rfl
  · split
    · simp [h, brightnessCalls_of_le]
    · rfl

theorem lpu_fs (st : AppState) : (load_presets_unblocked st).fs = st.fs := by
  unfold load_presets_unblocked
  split
  · rfl
  · rw [apply_fs]

theorem lpu_restoreFs (st : AppState) :
    (load_presets_unblocked st).restoreFs = st.restoreFs := by
  unfold load_presets_unblocked
  split
  · rfl
  · rw [apply_restoreFs]

theorem lpu_pending (st : AppState) :
    (load_presets_unblocked st).pending = st.pending := by
  unfold load_presets_unblocked
  split
  · rfl
  · rw [apply_pending]

theorem lpu_presetsList (st : AppState) :
    (load_presets_unblocked st).presetsList = sortedPresetNames st.fs := by
  unfold load_presets_unblocked
  split
  · next heq => rw [heq]
  · next heq => rw [apply_presetsList]; exact heq.symm

theorem lpu_dropdown_items (st : AppState) :
    (load_presets_unblocked st).dropdown.items = sortedPresetNames st.fs := by
  unfold load_presets_unblocked
  split
  · next heq => rw [heq]
  · next heq => rw [apply_dropdown]; exact heq.symm

theorem lpu_sliders_length (st : AppState) :
    (load_presets_unblocked st).sliders.length = st.sliders.length := by
  unfold load_presets_unblocked
  split
  · rfl
  · rw [apply_sliders_length]

theorem lpu_saved {st : AppState} (h : st.isPresetSaved = true) :
    (load_presets_unblocked st).isPresetSaved = true := by
  unfold load_presets_unblocked
  split
  · exact h
  · exact apply_saved h

theorem lpu_calls_of_nil {st : AppState} (h : st.sliders = []) :
    (load_presets_unblocked st).calls = st.calls := by
  unfold load_presets_unblocked
  split
  · rfl
  · exact apply_calls_of_nil h

/-! ### The startup state -/

theorem mkStartupState_fs (fs restoreFs : Fs) (hw : List Int) :
    (mkStartupState fs restoreFs hw).fs = fs := by
  unfold mkStartupState
  rw [lpu_fs]

theorem mkStartupState_restoreFs (fs restoreFs : Fs) (hw : List Int) :
    (mkStartupState fs restoreFs hw).restoreFs = restoreFs := by
  unfold mkStartupState
  rw [lpu_restoreFs]

theorem mkStartupState_sliders (fs restoreFs : Fs) (hw : List Int) :
    (mkStartupState fs restoreFs hw).sliders = hw := rfl

theorem mkStartupState_presetsList (fs restoreFs : Fs) (hw : List Int) :
    (mkStartupState fs restoreFs hw).presetsList = sortedPresetNames fs := by
  unfold mkStartupState
  rw [lpu_presetsList]

theorem mkStartupState_dropdown_items (fs restoreFs : Fs) (hw : List Int) :
    (mkStartupState fs restoreFs hw).dropdown.items = sortedPresetNames fs := by
  unfold mkStartupState
  rw [lpu_dropdown_items]

theorem mkStartupState_calls (fs restoreFs : Fs) (hw : List Int) :
    (mkStartupState fs restoreFs hw).calls = [] := by
  unfold mkStartupState
  rw [lpu_calls_of_nil rfl]

/-! ### Closed forms of load_user_prefs -/

theorem load_user_prefs_matched {st : AppState} {levels : List Int} {n : String}
    (h : firstMatch st.fs levels st.presetsList = some n) :
    load_user_prefs st (some levels) =
      { st with
          sliders := setSliders st.sliders levels
          calls := st.calls ++ brightnessCalls 0 st.sliders.length levels
          dropdown := setCurrentText st.dropdown n
          isPresetSaved := true } := by
  simp only [load_user_prefs]
  rw [h]

theorem load_user_prefs_nomatch {st : AppState} {levels : List Int}
    (h : firstMatch st.fs levels st.presetsList = none) :
    load_user_prefs st (some levels) =
      { st with
          sliders := setSliders st.sliders levels
          calls := st.calls ++ brightnessCalls 0 st.sliders.length levels
          dropdown := ⟨("UnsavedPreset") :: st.presetsList, 0⟩
          isPresetSaved := false } := by
  simp only [load_user_prefs]
  rw [h]

/-! ### The claims -/

/-- C1: On startup reconciliation with loaded preference levels, the
selected preset is the first preset in sorted (alphabetical) order whose
stored sequence is exactly equal to the levels sequence, and the state
becomes Matched (saved flag set, that name the current dropdown text);
when no preset's full sequence equals the levels, the state becomes
NoMatch with the sentinel selected.  First-in-sorted-order wins among
presets with identical content. -/
theorem C1_startup_reconciliation (fs restoreFs : Fs) (hw levels : List Int) :
    (∀ n, firstMatch fs levels (sortedPresetNames fs) = some n →
      (startupAfterPrefs fs restoreFs hw levels).isPresetSaved = true ∧
      currentText (startupAfterPrefs fs restoreFs hw levels).dropdown = n ∧
      n ∈ sortedPresetNames fs ∧ readPreset fs n = some levels ∧
      ∀ m ∈ sortedPresetNames fs, readPreset fs m = some levels → strLe n m = true) ∧
    (firstMatch fs levels (sortedPresetNames fs) = none →
      (startupAfterPrefs fs restoreFs hw levels).isPresetSaved = false ∧
      (startupAfterPrefs fs restoreFs hw levels).dropdown.items =
        ("UnsavedPreset") :: sortedPresetNames fs ∧
      (startupAfterPrefs fs restoreFs hw levels).dropdown.currentIndex = 0 ∧
      currentText (startupAfterPrefs fs restoreFs hw levels).dropdown = ("UnsavedPreset") ∧
      ∀ m ∈ sortedPresetNames fs, readPreset fs m ≠ some levels) := by
  have hfs : (mkStartupState fs restoreFs hw).fs = fs := mkStartupState_fs fs restoreFs hw
  have hpl : (mkStartupState fs restoreFs hw).presetsList = sortedPresetNames fs :=
    mkStartupState_presetsList fs restoreFs hw
  have hitems : (mkStartupState fs restoreFs hw).dropdown.items = sortedPresetNames fs :=
    mkStartupState_dropdown_items fs restoreFs hw
  constructor
  · intro n hn
    have hn' : firstMatch (mkStartupState fs restoreFs hw).fs levels
        (mkStartupState fs restoreFs hw).presetsList = some n := by rw [hfs, hpl]; exact hn
    have heq := load_user_prefs_matched hn'
    have hmem : n ∈ (mkStartupState fs restoreFs hw).dropdown.items := by
      rw [hitems]; exact firstMatch_mem hn
    refine ⟨?_, ?_, firstMatch_mem hn, firstMatch_read hn, ?_⟩
    · rw [startupAfterPrefs, heq]
    · rw [startupAfterPrefs, heq]
      exact currentText_setCurrentText hmem
    · exact firstMatch_first (sortedPresetNames_sorted fs) hn
  · intro hn
    have hn' : firstMatch (mkStartupState fs restoreFs hw).fs levels
        (mkStartupState fs restoreFs hw).presetsList = none := by rw [hfs, hpl]; exact hn
    have heq := load_user_prefs_nomatch hn'
    refine ⟨?_, ?_, ?_, ?_, firstMatch_none hn⟩
    · rw [startupAfterPrefs, heq]
    · rw [startupAfterPrefs, heq]
      simpa using hpl
    · rw [startupAfterPrefs, heq]
    · rw [startupAfterPrefs, heq]
      exact currentText_cons_zero _ _

/-- Presets directory of the startup examples: two presets with identical
content [40, 40]; "a.json" sorts first. -/
def exFsC1 : Fs := [(("b.json"), some [40, 40]), (("a.json"), some [40, 40])]

/-- Witness for C1 at the spec's own example: preference levels [40, 40]
with presets a.json = b.json = [40, 40] select "a.json". -/
theorem C1_witness :
    (startupAfterPrefs exFsC1 [] [7, 8] [40, 40]).isPresetSaved = true ∧
    currentText (startupAfterPrefs exFsC1 [] [7, 8] [40, 40]).dropdown = ("a.json") := by
  have h := (C1_startup_reconciliation exFsC1 [] [7, 8] [40, 40]).1 ("a.json") (by decide)
  exact ⟨h.1, h.2.1⟩

theorem map_clamp_id {l : List Int} (h : ∀ v ∈ l, 0 ≤ v ∧ v ≤ 100) :
    l.map clamp = l := by
  induction l with
  | nil => rfl
  | cons a l ih =>
    simp only [List.map_cons]
    rw [clamp_eq_self (h a (by simp)).1 (h a (by simp)).2,
      ih (fun v hv => h v (by simp [hv]))]

/-- C2: Saving the current slider levels as a preset and then
loading/applying that preset yields exactly the same sequence of values:
the stored file parses back to the saved levels, and applying it to a
display set of the same size restores exactly those slider values. -/
theorem C2_preset_round_trip (st : AppState) (name : String)
    (hname : name ≠ (""))
    (hrange : ∀ v ∈ st.sliders, 0 ≤ v ∧ v ≤ 100)
    (hns : normName name ≠ (""))
    (hsent : normName name ≠ ("UnsavedPreset")) :
    ∃ st', save_current_preset st name WriteOutcome.ok = Except.ok st' ∧
      readPreset st'.fs (normName name) = some st.sliders ∧
      ∀ t : AppState, currentText t.dropdown = normName name → t.fs = st'.fs →
        t.sliders.length = st.sliders.length →
        (apply_selected_preset t).sliders = st.sliders := by
  have hsave : save_current_preset st name WriteOutcome.ok =
      Except.ok (getState (save_current_preset st name WriteOutcome.ok)) := by
    simp only [save_current_preset, if_neg hname, getState]
  have hfs : (getState (save_current_preset st name WriteOutcome.ok)).fs =
      writeFile st.fs (normName name) (some st.sliders) := by
    simp only [save_current_preset, if_neg hname, getState]
    rw [lpu_fs]
  refine ⟨getState (save_current_preset st name WriteOutcome.ok), hsave, ?_, ?_⟩
  · rw [hfs, readPreset, lookupFile_writeFile]
  · intro t h1 h2 h3
    have hread : readPreset t.fs (currentText t.dropdown) = some st.sliders := by
      rw [h1, h2, hfs, readPreset, lookupFile_writeFile]
    have hdrop : t.sliders.drop st.sliders.length = [] := by
      rw [← h3]; exact List.drop_length _
    unfold apply_selected_preset
    rw [if_neg (by rw [h1]; exact not_or.mpr ⟨hns, hsent⟩), hread]
    simp only
    rw [setSliders_eq, h3, List.take_length, hdrop, List.append_nil, map_clamp_id hrange]

/-- Slider state for the round-trip witness: the spec's [10, 20, 30]. -/
def exStC2 : AppState :=
  { fs := [], restoreFs := [], sliders := [10, 20, 30], isPresetSaved := true,
    dropdown := ⟨[], -1⟩, presetsList := [], pending := [], calls := [] }

/-- Witness for C2: save("p", [10, 20, 30]) then load("p.json") returns
[10, 20, 30]. -/
theorem C2_witness :
    readPreset (getState (save_current_preset exStC2 ("p") WriteOutcome.ok)).fs
      (normName ("p")) = some [10, 20, 30] := by
  obtain ⟨st', heq, hread, _⟩ :=
    C2_preset_round_trip exStC2 ("p") (by decide) (by decide) (by decide) (by decide)
  rw [heq]
  exact hread

theorem msc_calls (st : AppState) (d : Nat) (v : Int) :
    (monitor_slider_changed st d v).calls = st.calls := by
  simp only [monitor_slider_changed]
  split <;> rfl

theorem msc_pending (st : AppState) (d : Nat) (v : Int) :
    (monitor_slider_changed st d v).pending =
      (d, v) :: st.pending.filter (fun p => p.1 ≠ d) := by
  simp only [monitor_slider_changed]
  split <;> rfl

theorem filter_ne_filter_eq (l : List (Nat × Int)) (d : Nat) :
    (l.filter (fun p => p.1 ≠ d)).filter (fun p => p.1 = d) = [] := by
  induction l with
  | nil => rfl
  | cons a l ih =>
    by_cases h : a.1 = d
    · simp only [List.filter_cons]
      simp [h, ih]
    · simp only [List.filter_cons]
      simp [h, ih]

theorem fold_msc_calls (st : AppState) (d : Nat) (moves : List Int) :
    (moves.foldl (fun s v => monitor_slider_changed s d v) st).calls = st.calls := by
  induction moves generalizing st with
  | nil => rfl
  | cons v vs ih => rw [List.foldl_cons, ih, msc_calls]

theorem fold_msc_pending_filter (st : AppState) (d : Nat) (moves : List Int)
    (h : moves ≠ []) :
    ((moves.foldl (fun s v => monitor_slider_changed s d v) st).pending.filter
      (fun p => p.1 = d)) = [(d, moves.getLast h)] := by
  induction moves generalizing st with
  | nil => exact absurd rfl h
  | cons v vs ih =>
    cases vs with
    | nil =>
      simp only [List.foldl_cons, List.foldl_nil, msc_pending]
      simp [List.filter_cons, filter_ne_filter_eq]
    | cons w ws =>
      rw [List.foldl_cons]
      rw [ih (monitor_slider_changed st d v) (by simp)]
      rfl

/-- C3: For every display and every nonempty sequence of slider moves on
that display within the debounce window, no brightness call is issued
while the moves arrive, each newer move replaces (cancels) the pending
timer for that display, and once the timers fire exactly one
brightness-set call is issued for that display, carrying the final value
of the sequence. -/
theorem C3_debounce_last_write_wins (st : AppState) (d : Nat) (moves : List Int)
    (hmoves : moves ≠ []) :
    (moves.foldl (fun s v => monitor_slider_changed s d v) st).calls = st.calls ∧
    (∀ s : AppState, ∀ v : Int,
      List.lookup d (monitor_slider_changed s d v).pending = some v) ∧
    ((fire_pending_timers
        (moves.foldl (fun s v => monitor_slider_changed s d v) st)).calls.drop
          st.calls.length).filter (fun p => p.1 = d) = [(d, moves.getLast hmoves)] := by
  refine ⟨fold_msc_calls st d moves, ?_, ?_⟩
  · intro s v
    rw [msc_pending]
    simp [List.lookup]
  · simp only [fire_pending_timers]
    rw [fold_msc_calls st d moves, List.drop_left, List.filter_reverse,
      fold_msc_pending_filter st d moves hmoves, List.reverse_singleton]

/-- Empty starting state for the debounce witness. -/
def exStC3 : AppState :=
  { fs := [], restoreFs := [], sliders := [30], isPresetSaved := false,
    dropdown := ⟨[("UnsavedPreset")], 0⟩, presetsList := [], pending := [], calls := [] }

/-- Witness for C3 at the spec's example: moves 30, 45, 60 within the
window yield exactly one call with 60. -/
theorem C3_witness :
    ((fire_pending_timers
        (([30, 45, 60] : List Int).foldl (fun s v => monitor_slider_changed s 0 v)
          exStC3)).calls.drop exStC3.calls.length).filter (fun p => p.1 = 0) =
      [(0, (60 : Int))] := by
  exact (C3_debounce_last_write_wins exStC3 0 [30, 45, 60] (by decide)).2.2

/-- State for the save-error claims. -/
def exStC4 : AppState :=
  { fs := [], restoreFs := [], sliders := [10], isPresetSaved := true,
    dropdown := ⟨[], -1⟩, presetsList := [], pending := [], calls := [] }

/-- C4 counterexample: with an I/O error injected at the preset write,
`save_current_preset` raises (the source has no try/except around the
write), contradicting "the error is swallowed, no exception propagates";
the carried state shows no in-memory update happened. -/
theorem C4_counterexample :
    isRaised (save_current_preset exStC4 ("p") WriteOutcome.failBefore) = true ∧
    getState (save_current_preset exStC4 ("p") WriteOutcome.failBefore) = exStC4 := by
  constructor <;> rfl

/-- C4 amended: if an I/O error occurs while writing the preset file, the
exception propagates out of save (nothing is swallowed); the prior
on-disk state is unchanged when the failure precedes the write, a partial
write leaves partial content, and no in-memory state is updated. -/
theorem C4_amended_write_error_raises (st : AppState) (name : String)
    (hname : name ≠ ("")) :
    (save_current_preset st name WriteOutcome.failBefore = Except.error st) ∧
    (∀ c, save_current_preset st name (WriteOutcome.failPartial c) =
      Except.error { st with fs := writeFile st.fs (normName name) c }) := by
  constructor
  · simp only [save_current_preset, if_neg hname]
  · intro c
    simp only [save_current_preset, if_neg hname]

/-- Witness for C4's amended statement. -/
theorem C4_witness :
    save_current_preset exStC4 ("q") WriteOutcome.failBefore = Except.error exStC4 :=
  (C4_amended_write_error_raises exStC4 ("q") (by decide)).1

/-- Starting state for the save-selection claims: one existing preset
"a.json" that sorts before the preset about to be saved. -/
def exStC5 : AppState :=
  { fs := [(("a.json"), some [1])], restoreFs := [], sliders := [7], isPresetSaved := false,
    dropdown := ⟨[("UnsavedPreset"), ("a.json")], 0⟩, presetsList := [("a.json")],
    pending := [], calls := [] }

/-- C5 counterexample: saving under the user-chosen name "z" (no ".json"
suffix) writes "z.json", but `setCurrentText` is called with the basename
of the name as typed, which matches no item; the dropdown is left on
"a.json", not on the freshly saved preset. -/
theorem C5_counterexample :
    currentText (getState (save_current_preset exStC5 ("z") WriteOutcome.ok)).dropdown =
      ("a.json") ∧
    ("a.json") ≠ ("z") ∧ ("a.json") ≠ normName ("z") := by
  refine ⟨by decide, by decide, by decide⟩

/-- C5 amended: after every successful preset save the saved flag is set,
and when the chosen name ends with ".json" (so the basename passed to
`setCurrentText` coincides with the listed file name) the dropdown's
current item becomes the freshly saved preset's name; for a name without
the suffix, `setCurrentText` is called with a text matching no item and
the selection is left unchanged. -/
theorem C5_amended_save_matches (st : AppState) (name : String)
    (hname : name ≠ ("")) (hjson : endsWithJson name = true) :
    ∀ st', save_current_preset st name WriteOutcome.ok = Except.ok st' →
      st'.isPresetSaved = true ∧ currentText st'.dropdown = name := by
  intro st' hst
  have hnorm : normName name = name := by rw [normName, if_pos hjson]
  simp only [save_current_preset, if_neg hname, Except.ok.injEq] at hst
  subst hst
  have hmem : name ∈ (load_presets_unblocked
      { st with fs := writeFile st.fs (normName name) (some st.sliders),
                isPresetSaved := true }).dropdown.items := by
    rw [lpu_dropdown_items, mem_sortedPresetNames, List.mem_filter]
    constructor
    · rw [hnorm]
      simp [writeFile]
    · exact hjson
  exact ⟨lpu_saved rfl, currentText_setCurrentText hmem⟩

/-- Witness for C5's amended statement: saving as "z.json" does select
"z.json". -/
theorem C5_witness :
    (getState (save_current_preset exStC5 ("z.json") WriteOutcome.ok)).isPresetSaved = true ∧
    currentText (getState (save_current_preset exStC5 ("z.json") WriteOutcome.ok)).dropdown =
      ("z.json") :=
  C5_amended_save_matches exStC5 ("z.json") (by decide) (by decide)
    (getState (save_current_preset exStC5 ("z.json") WriteOutcome.ok)) (by rfl)

theorem map_const_congr {l l' : List Int} (h : l.length = l'.length) (b : Int) :
    l.map (fun _ => b) = l'.map (fun _ => b) := by
  induction l generalizing l' with
  | nil =>
    cases l' with
    | nil => rfl
    | cons a' l'' => simp at h
  | cons a l ih =>
    cases l' with
    | nil => simp at h
    | cons a' l'' =>
      simp only [List.length_cons, Nat.add_right_cancel_iff] at h
      simp [ih h]

/-- C6: On a successful preset delete (current text is a real preset name
and its file exists), the preset list is reloaded from the directory
without the deleted file, every slider is set to the fixed default 50, a
brightness-set of 50 is issued for each display, and the state becomes
NoMatch: sentinel first in the dropdown and selected, saved flag
cleared. -/
theorem C6_delete_success (st : AppState) (c : Option (List Int))
    (hne : currentText st.dropdown ≠ (""))
    (hsent : currentText st.dropdown ≠ ("UnsavedPreset"))
    (hex : lookupFile st.fs (currentText st.dropdown) = some c) :
    (delete_selected_preset st true).presetsList =
      sortedPresetNames (removeFile st.fs (currentText st.dropdown)) ∧
    (delete_selected_preset st true).sliders = st.sliders.map (fun _ => (50 : Int)) ∧
    (∀ i, i < st.sliders.length → (i, (50 : Int)) ∈ (delete_selected_preset st true).calls) ∧
    (delete_selected_preset st true).dropdown.items =
      ("UnsavedPreset") :: (delete_selected_preset st true).presetsList ∧
    (delete_selected_preset st true).dropdown.currentIndex = 0 ∧
    currentText (delete_selected_preset st true).dropdown = ("UnsavedPreset") ∧
    (delete_selected_preset st true).isPresetSaved = false := by
  have hguard : ¬ (currentText st.dropdown = ("") ∨
      currentText st.dropdown = ("UnsavedPreset")) := not_or.mpr ⟨hne, hsent⟩
  have hdel : delete_selected_preset st true =
      { reset_sliders_to_default (load_presets_unblocked
          { st with
              fs := removeFile st.fs (currentText st.dropdown)
              restoreFs := (currentText st.dropdown, c) ::
                removeFile st.restoreFs (currentText st.dropdown) }) with
          dropdown := ⟨("UnsavedPreset") ::
            (reset_sliders_to_default (load_presets_unblocked
              { st with
                  fs := removeFile st.fs (currentText st.dropdown)
                  restoreFs := (currentText st.dropdown, c) ::
                    removeFile st.restoreFs (currentText st.dropdown) })).presetsList, 0⟩
          isPresetSaved := false } := by
    simp only [delete_selected_preset, if_neg hguard, hex, if_true]
  have hlen : (load_presets_unblocked
      { st with
          fs := removeFile st.fs (currentText st.dropdown)
          restoreFs := (currentText st.dropdown, c) ::
            removeFile st.restoreFs (currentText st.dropdown) }).sliders.length =
      st.sliders.length := lpu_sliders_length _
  have h50 : clamp 50 = (50 : Int) := by decide
  refine ⟨?_, ?_, ?_, ?_, ?_, ?_, ?_⟩
  · rw [hdel]
    simp only [reset_sliders_to_default, lpu_presetsList]
  · rw [hdel]
    simp only [reset_sliders_to_default, h50]
    exact map_const_congr hlen 50
  · intro i hi
    rw [hdel]
    simp only [reset_sliders_to_default]
    apply List.mem_append_right
    exact List.mem_map.mpr ⟨i, List.mem_range.mpr (by rw [hlen]; exact hi), rfl⟩
  · rw [hdel]
  · rw [hdel]
  · rw [hdel]
    exact currentText_cons_zero _ _
  · rw [hdel]

/-- Two-display state with two presets, "a.json" selected, for the delete
witnesses. -/
def exStC6 : AppState :=
  { fs := [(("a.json"), some [20, 30]), (("b.json"), some [5])], restoreFs := [],
    sliders := [20, 30], isPresetSaved := true,
    dropdown := ⟨[("a.json"), ("b.json")], 0⟩, presetsList := [("a.json"), ("b.json")],
    pending := [], calls := [] }

/-- Witness for C6 on a concrete two-display state. -/
theorem C6_witness :
    (delete_selected_preset exStC6 true).sliders = [50, 50] ∧
    (delete_selected_preset exStC6 true).isPresetSaved = false ∧
    currentText (delete_selected_preset exStC6 true).dropdown = ("UnsavedPreset") := by
  have h := C6_delete_success exStC6 (some [20, 30]) (by decide) (by decide) (by decide)
  exact ⟨by rw [h.2.1]; rfl, h.2.2.2.2.2.2, h.2.2.2.2.2.1⟩

/-- C7: delete is a no-op when the current text is the sentinel or the
preset file does not exist; when the file exists it is moved into the
restore directory (content preserved, not erased); and when the move
fails the error is swallowed and the preset remains listed (still in the
reloaded preset list and in the rebuilt dropdown), the directories
untouched. -/
theorem C7_delete_edge_cases (st : AppState) :
    (currentText st.dropdown = ("UnsavedPreset") →
      ∀ mv, delete_selected_preset st mv = st) ∧
    (lookupFile st.fs (currentText st.dropdown) = none →
      ∀ mv, delete_selected_preset st mv = st) ∧
    (∀ c, lookupFile st.fs (currentText st.dropdown) = some c →
      currentText st.dropdown ≠ ("") → currentText st.dropdown ≠ ("UnsavedPreset") →
      endsWithJson (currentText st.dropdown) = true →
      lookupFile (delete_selected_preset st true).fs (currentText st.dropdown) = none ∧
      lookupFile (delete_selected_preset st true).restoreFs (currentText st.dropdown) =
        some c ∧
      (delete_selected_preset st false).fs = st.fs ∧
      (delete_selected_preset st false).restoreFs = st.restoreFs ∧
      currentText st.dropdown ∈ (delete_selected_preset st false).presetsList ∧
      currentText st.dropdown ∈ (delete_selected_preset st false).dropdown.items) := by
  refine ⟨?_, ?_, ?_⟩
  · intro h mv
    simp only [delete_selected_preset, if_pos (Or.inr h)]
  · intro h mv
    by_cases hg : currentText st.dropdown = ("") ∨
        currentText st.dropdown = ("UnsavedPreset")
    · simp only [delete_selected_preset, if_pos hg]
    · simp only [delete_selected_preset, if_neg hg, h]
  · intro c hc hne hsent hjson
    have hguard : ¬ (currentText st.dropdown = ("") ∨
        currentText st.dropdown = ("UnsavedPreset")) := not_or.mpr ⟨hne, hsent⟩
    have hdelT : delete_selected_preset st true =
        { reset_sliders_to_default (load_presets_unblocked
            { st with
                fs := removeFile st.fs (currentText st.dropdown)
                restoreFs := (currentText st.dropdown, c) ::
                  removeFile st.restoreFs (currentText st.dropdown) }) with
            dropdown := ⟨("UnsavedPreset") ::
              (reset_sliders_to_default (load_presets_unblocked
                { st with
                    fs := removeFile st.fs (currentText st.dropdown)
                    restoreFs := (currentText st.dropdown, c) ::
                      removeFile st.restoreFs (currentText st.dropdown) })).presetsList, 0⟩
            isPresetSaved := false } := by
      simp only [delete_selected_preset, if_neg hguard, hc, if_true]
    have hdelF : delete_selected_preset st false =
        { reset_sliders_to_default (load_presets_unblocked st) with
            dropdown := ⟨("UnsavedPreset") ::
              (reset_sliders_to_default (load_presets_unblocked st)).presetsList, 0⟩
            isPresetSaved := false } := by
      simp only [delete_selected_preset, if_neg hguard, hc, Bool.false_eq_true,
        if_false]
    refine ⟨?_, ?_, ?_, ?_, ?_, ?_⟩
    · rw [hdelT]
      simp only [reset_sliders_to_default, lpu_fs]
      exact lookupFile_removeFile _ _
    · rw [hdelT]
      simp only [reset_sliders_to_default, lpu_restoreFs]
      exact lookupFile_cons_self _ _ _
    · rw [hdelF]
      simp only [reset_sliders_to_default, lpu_fs]
    · rw [hdelF]
      simp only [reset_sliders_to_default, lpu_restoreFs]
    · rw [hdelF]
      simp only [reset_sliders_to_default, lpu_presetsList]
      rw [mem_sortedPresetNames, List.mem_filter]
      exact ⟨mem_map_fst_of_lookupFile hc, hjson⟩
    · rw [hdelF]
      simp only [reset_sliders_to_default, lpu_presetsList]
      apply List.mem_cons_of_mem
      rw [mem_sortedPresetNames, List.mem_filter]
      exact ⟨mem_map_fst_of_lookupFile hc, hjson⟩

/-- Same concrete state as the C6 witness, for the C7 witness. -/
def exStC7 : AppState :=
  { fs := [(("a.json"), some [20, 30]), (("b.json"), some [5])], restoreFs := [],
    sliders := [20, 30], isPresetSaved := true,
    dropdown := ⟨[("a.json"), ("b.json")], 0⟩, presetsList := [("a.json"), ("b.json")],
    pending := [], calls := [] }

/-- Witness for C7: deleting "a.json" moves it (with its content) into
the restore directory and out of the presets directory. -/
theorem C7_witness :
    lookupFile (delete_selected_preset exStC7 true).fs ("a.json") = none ∧
    lookupFile (delete_selected_preset exStC7 true).restoreFs ("a.json") =
      some (some [20, 30]) := by
  have h := (C7_delete_edge_cases exStC7).2.2 (some [20, 30]) (by decide) (by decide)
    (by decide) (by decide)
  exact ⟨h.1, h.2.1⟩

/-- C8: Any slider value change while the state is Matched transitions to
NoMatch: the saved flag is cleared, the dropdown is rebuilt with the
sentinel "UnsavedPreset" first followed by all known preset names (the
sorted directory listing), and the sentinel is the selected item. -/
theorem C8_slider_change_deselects (st : AppState) (d : Nat) (v : Int)
    (hsaved : st.isPresetSaved = true)
    (hlist : st.presetsList = sortedPresetNames st.fs) :
    (monitor_slider_changed st d v).isPresetSaved = false ∧
    (monitor_slider_changed st d v).dropdown.items =
      ("UnsavedPreset") :: sortedPresetNames st.fs ∧
    (monitor_slider_changed st d v).dropdown.currentIndex = 0 ∧
    currentText (monitor_slider_changed st d v).dropdown = ("UnsavedPreset") ∧
    (sortedPresetNames st.fs).Sorted (fun a b => strLe a b = true) := by
  have hmsc : monitor_slider_changed st d v =
      { st with
          isPresetSaved := false
          dropdown := ⟨("UnsavedPreset") :: st.presetsList, 0⟩
          pending := (d, v) :: st.pending.filter (fun p => p.1 ≠ d) } := by
    simp only [monitor_slider_changed, if_pos hsaved]
  refine ⟨?_, ?_, ?_, ?_, sortedPresetNames_sorted st.fs⟩
  · rw [hmsc]
  · rw [hmsc]
    simpa using hlist
  · rw [hmsc]
  · rw [hmsc]
    exact currentText_cons_zero _ _

/-- Matched single-preset state for the C8 witness. -/
def exStC8 : AppState :=
  { fs := [(("a.json"), some [1])], restoreFs := [], sliders := [1], isPresetSaved := true,
    dropdown := ⟨[("a.json")], 0⟩, presetsList := [("a.json")], pending := [], calls := [] }

/-- Witness for C8 on a concrete Matched state. -/
theorem C8_witness :
    (monitor_slider_changed exStC8 0 33).isPresetSaved = false ∧
    currentText (monitor_slider_changed exStC8 0 33).dropdown = ("UnsavedPreset") := by
  have h := C8_slider_change_deselects exStC8 0 33 (by decide) (by decide)
  exact ⟨h.1, h.2.2.2.1⟩

theorem load_user_prefs_sliders (st : AppState) (levels : List Int) :
    (load_user_prefs st (some levels)).sliders = setSliders st.sliders levels := by
  simp only [load_user_prefs]
  cases firstMatch st.fs levels st.presetsList <;> rfl

theorem load_user_prefs_calls (st : AppState) (levels : List Int) :
    (load_user_prefs st (some levels)).calls =
      st.calls ++ brightnessCalls 0 st.sliders.length levels := by
  simp only [load_user_prefs]
  cases firstMatch st.fs levels st.presetsList <;> rfl

/-- C9: When the preference levels sequence is longer than the display
count N, startup reconciliation applies exactly the first N entries to
the sliders, the brightness calls are those generated from the first N
entries alone, and every issued call targets a display index below N
(the indexing guard); the operation is total, so no error is raised. -/
theorem C9_long_prefs_prefix (fs restoreFs : Fs) (hw levels : List Int)
    (h : hw.length < levels.length) :
    (startupAfterPrefs fs restoreFs hw levels).sliders =
      (levels.take hw.length).map clamp ∧
    (startupAfterPrefs fs restoreFs hw levels).calls =
      brightnessCalls 0 hw.length (levels.take hw.length) ∧
    ∀ p ∈ (startupAfterPrefs fs restoreFs hw levels).calls, p.1 < hw.length := by
  refine ⟨?_, ?_, ?_⟩
  · rw [startupAfterPrefs, load_user_prefs_sliders, mkStartupState_sliders, setSliders_eq,
      List.drop_eq_nil_of_le (le_of_lt h), List.append_nil]
  · rw [startupAfterPrefs, load_user_prefs_calls, mkStartupState_calls, List.nil_append,
      mkStartupState_sliders, brightnessCalls_take]
    simp only [Nat.sub_zero]
  · intro p hp
    rw [startupAfterPrefs, load_user_prefs_calls, mkStartupState_calls, List.nil_append,
      mkStartupState_sliders] at hp
    exact mem_brightnessCalls hp

/-- Witness for C9: one display, three preference entries; only the first
is applied and called. -/
theorem C9_witness :
    (startupAfterPrefs [] [] [10] [1, 2, 3]).sliders = [1] ∧
    (startupAfterPrefs [] [] [10] [1, 2, 3]).calls = [(0, 1)] := by
  have h := C9_long_prefs_prefix [] [] [10] [1, 2, 3] (by decide)
  exact ⟨by rw [h.1]; decide, by rw [h.2.1]; decide⟩

/-- C10: Applying a preset whose stored sequence is shorter than the
display count sets only the listed prefix of sliders (the remaining
sliders keep their previous values), every brightness call issued
targets an index below the sequence length (so the trailing displays get
no call), and the state still transitions to Matched. -/
theorem C10_short_preset_prefix (st : AppState) (values : List Int)
    (hne : currentText st.dropdown ≠ (""))
    (hsent : currentText st.dropdown ≠ ("UnsavedPreset"))
    (hread : readPreset st.fs (currentText st.dropdown) = some values)
    (hlen : values.length < st.sliders.length) :
    (apply_selected_preset st).sliders =
      values.map clamp ++ st.sliders.drop values.length ∧
    (apply_selected_preset st).calls = st.calls ++ enumFrom 0 values ∧
    (∀ p ∈ enumFrom 0 values, p.1 < values.length) ∧
    (apply_selected_preset st).isPresetSaved = true := by
  have happly : apply_selected_preset st =
      { st with
          sliders := setSliders st.sliders values
          calls := st.calls ++ brightnessCalls 0 st.sliders.length values
          isPresetSaved := true } := by
    simp only [apply_selected_preset, if_neg (not_or.mpr ⟨hne, hsent⟩), hread]
  refine ⟨?_, ?_, ?_, ?_⟩
  · rw [happly]
    simp only
    rw [setSliders_eq, List.take_of_length_le (le_of_lt hlen)]
  · rw [happly]
    simp only
    rw [brightnessCalls_eq_enumFrom (by simpa using le_of_lt hlen)]
  · intro p hp
    simpa using (mem_enumFrom hp).2
  · rw [happly]

/-- Two-display state whose selected preset stores a single value, for
the C10 witness. -/
def exStC10 : AppState :=
  { fs := [(("a.json"), some [5])], restoreFs := [], sliders := [1, 2],
    isPresetSaved := false, dropdown := ⟨[("a.json")], 0⟩, presetsList := [("a.json")],
    pending := [], calls := [] }

/-- Witness for C10: applying the one-value preset to two displays sets
only the first slider and issues only one call. -/
theorem C10_witness :
    (apply_selected_preset exStC10).sliders = [5, 2] ∧
    (apply_selected_preset exStC10).calls = [(0, 5)] ∧
    (apply_selected_preset exStC10).isPresetSaved = true := by
  have h := C10_short_preset_prefix exStC10 [5] (by decide) (by decide) (by decide)
    (by decide)
  exact ⟨by rw [h.1]; decide, by rw [h.2.1]; decide, h.2.2.2⟩

end ScreenTone
